import Mathlib

/-!
Verification of `src/packages/cli-plugin-metro/src/commands/bundle/buildBundle.ts`.

The file shallowly embeds `buildBundleWithConfig` as a pure function over an
explicit record of external collaborators (the pluggable output writer's
`build`/`save`, `fs.mkdirSync`, the engine session's `getAssets`, and
`saveAssets`), each of which may fail with an opaque error value.  The
function returns the call's result, an ordered trace of the observable
actions it performed, and the final value of the process-wide `NODE_ENV`
variable.  Pure leaves (`path.basename`, `path.dirname`, `Array.indexOf`,
`Array.join`, the request-options computation and the diagnostic messages)
are modelled directly from their sources.
-/

/-- The resolver section of a Metro `ConfigT`: the ordered list of supported
platform identifiers (`config.resolver.platforms`). -/
structure Resolver where
  platforms : List String
  deriving Repr, DecidableEq

/-- The slice of a resolved Metro configuration (`ConfigT`) read by
`buildBundleWithConfig`. -/
structure ConfigT where
  resolver : Resolver
  deriving Repr, DecidableEq

/-- The fields of `CommandLineArgs` (from `bundleCommandLineArgs.ts`, not in
the sources) that `buildBundleWithConfig` reads.  Optional CLI values are
`Option`s; `none` models a JavaScript `undefined`. -/
structure CommandLineArgs where
  entryFile : String
  platform : String
  dev : Bool
  minify : Option Bool
  bundleOutput : String
  sourcemapOutput : Option String
  sourcemapUseAbsolutePath : Bool
  assetsDest : Option String
  assetCatalogDest : Option String
  unstableTransformProfile : Option String
  deriving Repr, DecidableEq

/-- The `RequestOptions` interface of `buildBundle.ts`. -/
structure RequestOptions where
  entryFile : String
  sourceMapUrl : Option String
  dev : Bool
  minify : Bool
  platform : String
  unstable_transformProfile : Option String
  deriving Repr, DecidableEq

/-- A Metro `BundleOptions` value as used at the `server.getAssets` call
site: the six `RequestOptions` fields, the `bundleType` discriminator, and
a `defaults` component standing for every other field of
`Server.DEFAULT_BUNDLE_OPTIONS` (opaque to this code, of type `D`). -/
structure BundleOptions (D : Type) where
  entryFile : String
  sourceMapUrl : Option String
  dev : Bool
  minify : Bool
  platform : String
  unstable_transformProfile : Option String
  bundleType : String
  defaults : D
  deriving Repr, DecidableEq

/-- JavaScript `Array.prototype.indexOf` on a list of strings: index of the
first occurrence, `-1` when absent. -/
def jsIndexOf : List String → String → Int
  | [], _ => -1
  | a :: t, x =>
    if a = x then 0
    else
      let r := jsIndexOf t x
      if r = -1 then -1 else r + 1

/-- JavaScript `Array.prototype.join` with a separator (no element is
`undefined`/`null` here, so every element is taken verbatim). -/
def jsJoin (sep : String) : List String → String
  | [] => ""
  | [a] => a
  | a :: b :: t => a ++ sep ++ jsJoin sep (b :: t)

/-- Drop every trailing `'/'` of a character list. -/
def stripTrailingSlashes (cs : List Char) : List Char :=
  (cs.reverse.dropWhile (· = '/')).reverse

/-- The maximal suffix of a character list containing no `'/'`. -/
def afterLastSlash (cs : List Char) : List Char :=
  (cs.reverse.takeWhile (· ≠ '/')).reverse

/-- Node `path.posix.basename` (no extension argument): strip trailing
slashes, then keep everything after the last remaining slash. -/
def basename (p : String) : String :=
  String.mk (afterLastSlash (stripTrailingSlashes p.data))

/-- The scan of Node `path.posix.dirname`: walking the characters from the
end (positions in descending order, position 0 excluded), skip trailing
slashes, then return the position of the first slash met after a
non-slash character, if any. -/
def dirnameFindEnd : List (Nat × Char) → Bool → Option Nat
  | [], _ => none
  | (i, c) :: t, matchedSlash =>
    if i = 0 then none
    else if c = '/' then
      if matchedSlash then dirnameFindEnd t matchedSlash else some i
    else dirnameFindEnd t false

/-- Node `path.posix.dirname`. -/
def dirname (p : String) : String :=
  if p.data = [] then "."
  else
    let hasRoot := p.data.head? = some '/'
    match dirnameFindEnd p.data.enum.reverse true with
    | none => if hasRoot then "/" else "."
    | some e => if hasRoot ∧ e = 1 then "//" else String.mk (p.data.take e)

/-- The `chalk.bold` styling applied to the platform names in the
diagnostics, modelled as the ANSI bold escape wrapping. -/
def chalkBold (s : String) : String := "\x1b[1m" ++ s ++ "\x1b[22m"

/-- The `logger.error` message emitted for an invalid platform.  The
template elides the quoted platform when the string is falsy (empty). -/
def invalidPlatformMessage (platform : String) : String :=
  "Invalid platform " ++
    (if platform ≠ "" then "\"" ++ chalkBold platform ++ "\" " else "") ++
    "selected."

/-- The `logger.info` message listing the available platforms. -/
def availablePlatformsMessage (platforms : List String) : String :=
  "Available platforms are: " ++
    jsJoin ", " (platforms.map fun x => "\"" ++ chalkBold x ++ "\"") ++
    ". If you are trying to bundle for an out-of-tree platform, it may not be installed."

/-- The `sourceMapUrl` computation of `buildBundleWithConfig`: start from
`args.sourcemapOutput`; when it is truthy (a non-empty string) and
`sourcemapUseAbsolutePath` is not set, replace it with its basename. -/
def computeSourceMapUrl (args : CommandLineArgs) : Option String :=
  match args.sourcemapOutput with
  | none => none
  | some u =>
    if u ≠ "" ∧ ¬ args.sourcemapUseAbsolutePath then some (basename u) else some u

/-- The `requestOpts` object literal of `buildBundleWithConfig`. -/
def requestOptionsOf (args : CommandLineArgs) : RequestOptions :=
  { entryFile := args.entryFile
    sourceMapUrl := computeSourceMapUrl args
    dev := args.dev
    minify := match args.minify with | some m => m | none => !args.dev
    platform := args.platform
    unstable_transformProfile := args.unstableTransformProfile }

/-- The spread `{...Server.DEFAULT_BUNDLE_OPTIONS, ...requestOpts,
bundleType: 'todo'}`: every `requestOpts` key overrides the default (the
object literal always carries all six keys), `bundleType` is fixed to
`"todo"`, and the remaining default fields pass through. -/
def mergedBundleOptions {D : Type} (dflt : BundleOptions D) (r : RequestOptions) :
    BundleOptions D :=
  { dflt with
    entryFile := r.entryFile
    sourceMapUrl := r.sourceMapUrl
    dev := r.dev
    minify := r.minify
    platform := r.platform
    unstable_transformProfile := r.unstable_transformProfile
    bundleType := "todo" }

/-- One observable action of `buildBundleWithConfig`, in program order.
`B` is the opaque bundle-artifact type, `A` the opaque asset-list type,
`D` the type of the non-overridden default bundle-option fields. -/
inductive Event (B A D : Type) where
  | logError (msg : String)
  | logInfo (msg : String)
  | setNodeEnv (value : String)
  | serverNew
  | outputBuild (opts : RequestOptions)
  | mkdirSync (dir : String) (recursive : Bool) (mode : Nat)
  | outputSave (bundle : B)
  | getAssets (opts : BundleOptions D)
  | saveAssetsCall (assets : A) (platform : String)
      (assetsDest assetCatalogDest : Option String)
  | serverEnd

/-- An error surfaced by `buildBundleWithConfig`: either an `Error` thrown
by this function itself (carrying its message) or an error raised by one of
the external collaborators, re-raised unchanged. -/
inductive OrchError (E : Type) where
  | jsError (message : String)
  | raised (e : E)
  deriving Repr, DecidableEq

/-- The external collaborators of `buildBundleWithConfig`, each modelled as
a function that either succeeds or raises an opaque error of type `E`:
the output writer (`output.build`, `output.save`), `fs.mkdirSync`,
the engine session (`server.getAssets`), and `saveAssets`, plus the value
of `Server.DEFAULT_BUNDLE_OPTIONS`. -/
structure Externals (B A R E D : Type) where
  defaultBundleOptions : BundleOptions D
  build : RequestOptions → Except E B
  mkdir : String → Except E Unit
  save : B → Except E Unit
  getAssets : BundleOptions D → Except E A
  saveAssets : A → String → Option String → Option String → Except E R

/-- The outcome of one `buildBundleWithConfig` call: its result (the value
returned by `saveAssets`, or the error that propagated), the ordered trace
of observable actions, and the final value of `process.env.NODE_ENV`. -/
structure RunOutcome (B A R E D : Type) where
  result : Except (OrchError E) R
  trace : List (Event B A D)
  nodeEnv : Option String

/-- The body of the `try` block of `buildBundleWithConfig`: build the
bundle, create the output directory, save the bundle, fetch the assets
with the merged options, save the assets; stop at the first failure.
Returns the block's result together with the actions it performed. -/
def tryBody {B A R E D : Type} (args : CommandLineArgs) (ext : Externals B A R E D)
    (requestOpts : RequestOptions) :
    Except (OrchError E) R × List (Event B A D) :=
  let evBuild := Event.outputBuild (B := B) (A := A) (D := D) requestOpts
  match ext.build requestOpts with
  | .error e => (.error (.raised e), [evBuild])
  | .ok bundle =>
    let dir := dirname args.bundleOutput
    let evMkdir := Event.mkdirSync (B := B) (A := A) (D := D) dir true 0o755
    match ext.mkdir dir with
    | .error e => (.error (.raised e), [evBuild, evMkdir])
    | .ok _ =>
      let evSave := Event.outputSave (A := A) (D := D) bundle
      match ext.save bundle with
      | .error e => (.error (.raised e), [evBuild, evMkdir, evSave])
      | .ok _ =>
        let merged := mergedBundleOptions ext.defaultBundleOptions requestOpts
        let evAssets := Event.getAssets (B := B) (A := A) merged
        match ext.getAssets merged with
        | .error e => (.error (.raised e), [evBuild, evMkdir, evSave, evAssets])
        | .ok assets =>
          let evSaveAssets := Event.saveAssetsCall (B := B) (D := D) assets
            args.platform args.assetsDest args.assetCatalogDest
          match ext.saveAssets assets args.platform args.assetsDest args.assetCatalogDest with
          | .error e =>
            (.error (.raised e), [evBuild, evMkdir, evSave, evAssets, evSaveAssets])
          | .ok r =>
            (.ok r, [evBuild, evMkdir, evSave, evAssets, evSaveAssets])

/-- Shallow embedding of `buildBundleWithConfig`.  `nodeEnv` is the value
of `process.env.NODE_ENV` when the call starts.  On an invalid platform the
two diagnostics are logged and a generic `Error('Bundling failed')` is
thrown with nothing else done; otherwise `NODE_ENV` is set from `args.dev`,
the request options are computed, a `Server` is constructed, and the `try`
body runs with `server.end()` guaranteed by the `finally` clause on every
exit path. -/
def buildBundleWithConfig {B A R E D : Type} (nodeEnv : Option String)
    (args : CommandLineArgs) (config : ConfigT) (ext : Externals B A R E D) :
    RunOutcome B A R E D :=
  if jsIndexOf config.resolver.platforms args.platform = -1 then
    { result := .error (.jsError "Bundling failed")
      trace := [.logError (invalidPlatformMessage args.platform),
                .logInfo (availablePlatformsMessage config.resolver.platforms)]
      nodeEnv := nodeEnv }
  else
    let envValue := if args.dev then "development" else "production"
    let requestOpts := requestOptionsOf args
    let body := tryBody args ext requestOpts
    { result := body.1
      trace := .setNodeEnv envValue :: .serverNew :: body.2 ++ [.serverEnd]
      nodeEnv := some envValue }

/-- Recognizes the `server.end()` event. -/
def Event.isServerEnd {B A D : Type} : Event B A D → Bool
  | .serverEnd => true
  | _ => false

/-- Recognizes the `new Server(config)` event. -/
def Event.isServerNew {B A D : Type} : Event B A D → Bool
  | .serverNew => true
  | _ => false

/-- Recognizes the `process.env.NODE_ENV` assignment event. -/
def Event.isSetNodeEnv {B A D : Type} : Event B A D → Bool
  | .setNodeEnv _ => true
  | _ => false

/-- Recognizes the `fs.mkdirSync` event. -/
def Event.isMkdirSync {B A D : Type} : Event B A D → Bool
  | .mkdirSync _ _ _ => true
  | _ => false

/-- Recognizes the `output.save` event. -/
def Event.isOutputSave {B A D : Type} : Event B A D → Bool
  | .outputSave _ => true
  | _ => false

/-- Recognizes the `server.getAssets` event. -/
def Event.isGetAssets {B A D : Type} : Event B A D → Bool
  | .getAssets _ => true
  | _ => false

/-- Recognizes the `saveAssets` event. -/
def Event.isSaveAssetsCall {B A D : Type} : Event B A D → Bool
  | .saveAssetsCall _ _ _ _ => true
  | _ => false

/-- `jsIndexOf` never returns a value below `-1`. -/
theorem jsIndexOf_eq_or_nonneg (l : List String) (x : String) :
    jsIndexOf l x = -1 ∨ 0 ≤ jsIndexOf l x := by
  induction l with
  | nil => left; rfl
  | cons a t ih =>
    simp only [jsIndexOf]
    by_cases hax : a = x
    · simp [hax]
    · simp only [hax, if_false]
      rcases ih with h | h
      · simp [h]
      · right
        split <;> omega

/-- `jsIndexOf` returns `-1` exactly when the element is absent. -/
theorem jsIndexOf_eq_neg_one_iff (l : List String) (x : String) :
    jsIndexOf l x = -1 ↔ x ∉ l := by
  induction l with
  | nil => simp [jsIndexOf]
  | cons a t ih =>
    by_cases hax : a = x
    · subst hax
      constructor
      · intro h
        simp [jsIndexOf] at h
      · intro h
        exact absurd (List.mem_cons_self a t) h
    · simp only [jsIndexOf, hax, if_false, List.mem_cons]
      constructor
      · intro hl
        by_cases ht : jsIndexOf t x = -1
        · intro hc
          rcases hc with hc | hc
          · exact hax hc.symm
          · exact ih.mp ht hc
        · exfalso
          rw [if_neg ht] at hl
          rcases jsIndexOf_eq_or_nonneg t x with h | h
          · exact ht h
          · omega
      · intro hl
        have ht : x ∉ t := fun hm => hl (Or.inr hm)
        simp [ih.mpr ht]

/-- The `try` block body performs no `Server` construction, no
`server.end`, and no `NODE_ENV` assignment, on any of its paths. -/
theorem tryBody_no_session_events {B A R E D : Type} (args : CommandLineArgs)
    (ext : Externals B A R E D) (r : RequestOptions) :
    (tryBody args ext r).2.countP Event.isServerEnd = 0 ∧
    (tryBody args ext r).2.countP Event.isServerNew = 0 ∧
    (tryBody args ext r).2.countP Event.isSetNodeEnv = 0 := by
  simp only [tryBody]
  repeat' split
  all_goals
    simp [List.countP_cons, Event.isServerEnd, Event.isServerNew, Event.isSetNodeEnv]

/-- Every element of a `jsJoin` appears verbatim inside the joined string. -/
theorem infix_jsJoin (sep : String) (l : List String) (x : String) (hx : x ∈ l) :
    x.data <:+: (jsJoin sep l).data := by
  induction l with
  | nil => cases hx
  | cons a t ih =>
    cases t with
    | nil =>
      rw [List.mem_singleton] at hx
      subst hx
      exact List.infix_rfl
    | cons b t' =>
      rcases List.mem_cons.mp hx with rfl | hx'
      · exact ⟨[], (sep ++ jsJoin sep (b :: t')).data, by simp [jsJoin]⟩
      · exact (ih hx').trans ⟨(a ++ sep).data, [], by simp [jsJoin]⟩

/-- The invalid-platform error message displays the requested platform. -/
theorem platform_infix_invalidPlatformMessage (p : String) :
    p.data <:+: (invalidPlatformMessage p).data := by
  by_cases hp : p = ""
  · subst hp
    exact List.nil_infix
  · refine ⟨("Invalid platform " ++ "\"" ++ "\x1b[1m").data,
      ("\x1b[22m" ++ "\" " ++ "selected.").data, ?_⟩
    simp [invalidPlatformMessage, chalkBold, hp]

/-- The available-platforms info message displays every supported
platform. -/
theorem platform_infix_availablePlatformsMessage (platforms : List String)
    (p : String) (hp : p ∈ platforms) :
    p.data <:+: (availablePlatformsMessage platforms).data := by
  have h1 : p.data <:+: ("\"" ++ chalkBold p ++ "\"").data :=
    ⟨("\"" ++ "\x1b[1m").data, ("\x1b[22m" ++ "\"").data, by simp [chalkBold]⟩
  have h2 : ("\"" ++ chalkBold p ++ "\"").data <:+:
      (jsJoin ", " (platforms.map fun x => "\"" ++ chalkBold x ++ "\"")).data :=
    infix_jsJoin _ _ _ (List.mem_map_of_mem _ hp)
  have h3 : (jsJoin ", " (platforms.map fun x => "\"" ++ chalkBold x ++ "\"")).data <:+:
      (availablePlatformsMessage platforms).data := by
    refine ⟨("Available platforms are: ").data,
      (". If you are trying to bundle for an out-of-tree platform, it may not be installed.").data, ?_⟩
    simp [availablePlatformsMessage]
  exact (h1.trans h2).trans h3

/-- A sample value of `Server.DEFAULT_BUNDLE_OPTIONS` for concrete runs. -/
def sampleDefaults : BundleOptions Unit :=
  { entryFile := "default.js"
    sourceMapUrl := none
    dev := true
    minify := false
    platform := "web"
    unstable_transformProfile := none
    bundleType := "bundle"
    defaults := () }

/-- Sample CLI arguments selecting a supported platform. -/
def sampleArgs : CommandLineArgs :=
  { entryFile := "index.js"
    platform := "ios"
    dev := true
    minify := none
    bundleOutput := "/out/main.jsbundle"
    sourcemapOutput := some "/out/main.map"
    sourcemapUseAbsolutePath := false
    assetsDest := some "/out/assets"
    assetCatalogDest := none
    unstableTransformProfile := none }

/-- Sample CLI arguments selecting an unsupported platform. -/
def badArgs : CommandLineArgs :=
  { sampleArgs with platform := "windows" }

/-- A sample resolved configuration supporting ios and android. -/
def sampleConfig : ConfigT := { resolver := { platforms := ["ios", "android"] } }

/-- Collaborators that all succeed, over `Nat` artifacts and `Unit`
errors. -/
def sampleExternalsOk : Externals Nat Nat Nat Unit Unit :=
  { defaultBundleOptions := sampleDefaults
    build := fun _ => .ok 1
    mkdir := fun _ => .ok ()
    save := fun _ => .ok ()
    getAssets := fun _ => .ok 2
    saveAssets := fun _ _ _ _ => .ok 7 }

/-- Collaborators whose `output.save` step fails. -/
def sampleExternalsFailSave : Externals Nat Nat Nat Unit Unit :=
  { sampleExternalsOk with save := fun _ => .error () }

/-- C1: whenever platform validation succeeds (so a `Server` engine session
is constructed), `server.end()` is invoked exactly once on every exit path
of `buildBundleWithConfig` — whatever the outcomes of the output writer's
build step, the directory creation, the output writer's save step, the
asset request and the asset extractor — exactly one session is
constructed, and the release is the final action of the call, so any error
propagates to the caller only after the session has been released. -/
theorem session_released_exactly_once {B A R E D : Type} (nodeEnv : Option String)
    (args : CommandLineArgs) (config : ConfigT) (ext : Externals B A R E D)
    (mem : args.platform ∈ config.resolver.platforms) :
    (buildBundleWithConfig nodeEnv args config ext).trace.countP Event.isServerEnd = 1 ∧
    (buildBundleWithConfig nodeEnv args config ext).trace.countP Event.isServerNew = 1 ∧
    (buildBundleWithConfig nodeEnv args config ext).trace.getLast? =
      some Event.serverEnd := by
  have hv : ¬ jsIndexOf config.resolver.platforms args.platform = -1 := fun h =>
    (jsIndexOf_eq_neg_one_iff _ _).mp h mem
  obtain ⟨h1, h2, h3⟩ := tryBody_no_session_events args ext (requestOptionsOf args)
  simp only [buildBundleWithConfig, if_neg hv]
  refine ⟨?_, ?_, ?_⟩
  · simp [List.countP_cons, List.countP_append, h1, Event.isServerEnd]
  · simp [List.countP_cons, List.countP_append, h2, Event.isServerNew]
  · exact List.getLast?_concat _

/-- Witness for C1 at a concrete run whose `output.save` step fails. -/
theorem session_released_exactly_once_witness :
    (buildBundleWithConfig none sampleArgs sampleConfig
        sampleExternalsFailSave).trace.countP Event.isServerEnd = 1 ∧
    (buildBundleWithConfig none sampleArgs sampleConfig
        sampleExternalsFailSave).trace.countP Event.isServerNew = 1 ∧
    (buildBundleWithConfig none sampleArgs sampleConfig
        sampleExternalsFailSave).trace.getLast? = some Event.serverEnd :=
  session_released_exactly_once none sampleArgs sampleConfig sampleExternalsFailSave
    (by decide)

/-- C2: when the requested platform is absent from the resolver's platform
list, `buildBundleWithConfig` fails with the generic
`Error("Bundling failed")`, no `Server` session is ever constructed, and
the directory-creation, bundle-save, asset-request and asset-save steps
are never invoked. -/
theorem invalid_platform_short_circuits {B A R E D : Type} (nodeEnv : Option String)
    (args : CommandLineArgs) (config : ConfigT) (ext : Externals B A R E D)
    (hmem : args.platform ∉ config.resolver.platforms) :
    (buildBundleWithConfig nodeEnv args config ext).result =
      .error (.jsError "Bundling failed") ∧
    (buildBundleWithConfig nodeEnv args config ext).trace.countP Event.isServerNew = 0 ∧
    (buildBundleWithConfig nodeEnv args config ext).trace.countP Event.isMkdirSync = 0 ∧
    (buildBundleWithConfig nodeEnv args config ext).trace.countP Event.isOutputSave = 0 ∧
    (buildBundleWithConfig nodeEnv args config ext).trace.countP Event.isGetAssets = 0 ∧
    (buildBundleWithConfig nodeEnv args config ext).trace.countP
      Event.isSaveAssetsCall = 0 := by
  have hv : jsIndexOf config.resolver.platforms args.platform = -1 :=
    (jsIndexOf_eq_neg_one_iff _ _).mpr hmem
  simp [buildBundleWithConfig, hv, List.countP_cons, Event.isServerNew,
    Event.isMkdirSync, Event.isOutputSave, Event.isGetAssets, Event.isSaveAssetsCall]

/-- Witness for C2 at a concrete run requesting the platform "windows". -/
theorem invalid_platform_short_circuits_witness :
    (buildBundleWithConfig none badArgs sampleConfig sampleExternalsOk).result =
      .error (.jsError "Bundling failed") ∧
    (buildBundleWithConfig none badArgs sampleConfig sampleExternalsOk).trace.countP
      Event.isServerNew = 0 ∧
    (buildBundleWithConfig none badArgs sampleConfig sampleExternalsOk).trace.countP
      Event.isMkdirSync = 0 ∧
    (buildBundleWithConfig none badArgs sampleConfig sampleExternalsOk).trace.countP
      Event.isOutputSave = 0 ∧
    (buildBundleWithConfig none badArgs sampleConfig sampleExternalsOk).trace.countP
      Event.isGetAssets = 0 ∧
    (buildBundleWithConfig none badArgs sampleConfig sampleExternalsOk).trace.countP
      Event.isSaveAssetsCall = 0 :=
  invalid_platform_short_circuits none badArgs sampleConfig sampleExternalsOk (by decide)

/-- C3: the computed `RequestOptions.minify` equals `args.minify` whenever
that argument is defined, and equals the negation of `args.dev` when it is
undefined. -/
theorem requestOptions_minify_correct (args : CommandLineArgs) :
    (∀ m, args.minify = some m → (requestOptionsOf args).minify = m) ∧
    (args.minify = none → (requestOptionsOf args).minify = !args.dev) := by
  constructor
  · intro m hm
    simp [requestOptionsOf, hm]
  · intro h
    simp [requestOptionsOf, h]

/-- Witness for C3 at concrete arguments with `minify` undefined. -/
theorem requestOptions_minify_correct_witness :
    (requestOptionsOf sampleArgs).minify = !sampleArgs.dev :=
  (requestOptions_minify_correct sampleArgs).2 rfl

/-- C4: the computed `RequestOptions.sourceMapUrl` is undefined when
`args.sourcemapOutput` is absent; otherwise it equals the basename of the
given path when `sourcemapUseAbsolutePath` is false, and the path
unchanged when `sourcemapUseAbsolutePath` is true. -/
theorem requestOptions_sourceMapUrl_correct (args : CommandLineArgs) :
    (args.sourcemapOutput = none → (requestOptionsOf args).sourceMapUrl = none) ∧
    (∀ s, args.sourcemapOutput = some s →
      (args.sourcemapUseAbsolutePath = false →
        (requestOptionsOf args).sourceMapUrl = some (basename s)) ∧
      (args.sourcemapUseAbsolutePath = true →
        (requestOptionsOf args).sourceMapUrl = some s)) := by
  refine ⟨fun h => by simp [requestOptionsOf, computeSourceMapUrl, h],
    fun s hs => ⟨?_, ?_⟩⟩
  · intro hf
    by_cases hempty : s = ""
    · subst hempty
      simp [requestOptionsOf, computeSourceMapUrl, hs, hf, basename,
        afterLastSlash, stripTrailingSlashes]
    · simp [requestOptionsOf, computeSourceMapUrl, hs, hf, hempty]
  · intro ht
    simp [requestOptionsOf, computeSourceMapUrl, hs, ht]

/-- Witness for C4 at concrete arguments with a relative source-map URL. -/
theorem requestOptions_sourceMapUrl_correct_witness :
    (requestOptionsOf sampleArgs).sourceMapUrl = some (basename "/out/main.map") :=
  ((requestOptions_sourceMapUrl_correct sampleArgs).2 "/out/main.map" rfl).1 rfl

/-- C5: in every successful-validation run whose build step succeeds,
`fs.mkdirSync` is invoked on the parent directory of `args.bundleOutput`
with `recursive := true` (creation is recursive and idempotent when the
directory already exists) and mode `0o755`, immediately after the output
writer's build step; every `output.save` invocation of the run occurs
strictly after it. -/
theorem mkdir_after_build_before_save {B A R E D : Type} (nodeEnv : Option String)
    (args : CommandLineArgs) (config : ConfigT) (ext : Externals B A R E D) (b : B)
    (mem : args.platform ∈ config.resolver.platforms)
    (hb : ext.build (requestOptionsOf args) = .ok b) :
    ∃ rest,
      (buildBundleWithConfig nodeEnv args config ext).trace =
        [Event.setNodeEnv (if args.dev then "development" else "production"),
         Event.serverNew,
         Event.outputBuild (requestOptionsOf args),
         Event.mkdirSync (dirname args.bundleOutput) true 0o755] ++ rest ∧
      (buildBundleWithConfig nodeEnv args config ext).trace.countP Event.isOutputSave =
        rest.countP Event.isOutputSave := by
  have hv : ¬ jsIndexOf config.resolver.platforms args.platform = -1 := fun h =>
    (jsIndexOf_eq_neg_one_iff _ _).mp h mem
  simp only [buildBundleWithConfig, if_neg hv, tryBody, hb]
  repeat' split
  all_goals exact ⟨_, rfl, by simp [List.countP_cons, Event.isOutputSave]⟩

/-- Witness for C5 at a concrete all-succeeding run. -/
theorem mkdir_after_build_before_save_witness :
    ∃ rest,
      (buildBundleWithConfig none sampleArgs sampleConfig sampleExternalsOk).trace =
        [Event.setNodeEnv (if sampleArgs.dev then "development" else "production"),
         Event.serverNew,
         Event.outputBuild (requestOptionsOf sampleArgs),
         Event.mkdirSync (dirname sampleArgs.bundleOutput) true 0o755] ++ rest ∧
      (buildBundleWithConfig none sampleArgs sampleConfig
          sampleExternalsOk).trace.countP Event.isOutputSave =
        rest.countP Event.isOutputSave :=
  mkdir_after_build_before_save none sampleArgs sampleConfig sampleExternalsOk 1
    (by decide) rfl

/-- C6: in every run that passes platform validation,
`process.env.NODE_ENV` is set to "development" when `args.dev` is true and
to "production" when it is false, before the `Server` session is
constructed, and the final environment still holds that value whatever
happens later in the call. -/
theorem node_env_set_from_dev {B A R E D : Type} (nodeEnv : Option String)
    (args : CommandLineArgs) (config : ConfigT) (ext : Externals B A R E D)
    (mem : args.platform ∈ config.resolver.platforms) :
    (args.dev = true →
      (buildBundleWithConfig nodeEnv args config ext).nodeEnv = some "development" ∧
      ∃ rest, (buildBundleWithConfig nodeEnv args config ext).trace =
        Event.setNodeEnv "development" :: Event.serverNew :: rest) ∧
    (args.dev = false →
      (buildBundleWithConfig nodeEnv args config ext).nodeEnv = some "production" ∧
      ∃ rest, (buildBundleWithConfig nodeEnv args config ext).trace =
        Event.setNodeEnv "production" :: Event.serverNew :: rest) := by
  have hv : ¬ jsIndexOf config.resolver.platforms args.platform = -1 := fun h =>
    (jsIndexOf_eq_neg_one_iff _ _).mp h mem
  constructor <;> intro hd <;> simp only [buildBundleWithConfig, if_neg hv, hd] <;>
    exact ⟨rfl, _, rfl⟩

/-- Witness for C6 at a concrete development-mode run. -/
theorem node_env_set_from_dev_witness :
    (buildBundleWithConfig none sampleArgs sampleConfig sampleExternalsOk).nodeEnv =
      some "development" ∧
    ∃ rest, (buildBundleWithConfig none sampleArgs sampleConfig
        sampleExternalsOk).trace =
      Event.setNodeEnv "development" :: Event.serverNew :: rest :=
  (node_env_set_from_dev none sampleArgs sampleConfig sampleExternalsOk (by decide)).1 rfl

/-- C7: in every successful-validation run that reaches the asset request,
`server.getAssets` is invoked with exactly the engine default bundle
options overridden by every field of the computed request options and
extended with the fixed `bundleType := "todo"` discriminator. -/
theorem assets_requested_with_merged_options {B A R E D : Type}
    (nodeEnv : Option String) (args : CommandLineArgs) (config : ConfigT)
    (ext : Externals B A R E D) (b : B)
    (mem : args.platform ∈ config.resolver.platforms)
    (hb : ext.build (requestOptionsOf args) = .ok b)
    (hm : ext.mkdir (dirname args.bundleOutput) = .ok ())
    (hs : ext.save b = .ok ()) :
    Event.getAssets
        (mergedBundleOptions ext.defaultBundleOptions (requestOptionsOf args)) ∈
      (buildBundleWithConfig nodeEnv args config ext).trace ∧
    mergedBundleOptions ext.defaultBundleOptions (requestOptionsOf args) =
      { entryFile := (requestOptionsOf args).entryFile
        sourceMapUrl := (requestOptionsOf args).sourceMapUrl
        dev := (requestOptionsOf args).dev
        minify := (requestOptionsOf args).minify
        platform := (requestOptionsOf args).platform
        unstable_transformProfile := (requestOptionsOf args).unstable_transformProfile
        bundleType := "todo"
        defaults := ext.defaultBundleOptions.defaults } := by
  have hv : ¬ jsIndexOf config.resolver.platforms args.platform = -1 := fun h =>
    (jsIndexOf_eq_neg_one_iff _ _).mp h mem
  refine ⟨?_, rfl⟩
  simp only [buildBundleWithConfig, if_neg hv, tryBody, hb, hm, hs]
  repeat' split
  all_goals simp

/-- Witness for C7 at a concrete all-succeeding run. -/
theorem assets_requested_with_merged_options_witness :
    Event.getAssets
        (mergedBundleOptions sampleExternalsOk.defaultBundleOptions
          (requestOptionsOf sampleArgs)) ∈
      (buildBundleWithConfig none sampleArgs sampleConfig sampleExternalsOk).trace ∧
    mergedBundleOptions sampleExternalsOk.defaultBundleOptions
        (requestOptionsOf sampleArgs) =
      { entryFile := (requestOptionsOf sampleArgs).entryFile
        sourceMapUrl := (requestOptionsOf sampleArgs).sourceMapUrl
        dev := (requestOptionsOf sampleArgs).dev
        minify := (requestOptionsOf sampleArgs).minify
        platform := (requestOptionsOf sampleArgs).platform
        unstable_transformProfile := (requestOptionsOf sampleArgs).unstable_transformProfile
        bundleType := "todo"
        defaults := sampleExternalsOk.defaultBundleOptions.defaults } :=
  assets_requested_with_merged_options none sampleArgs sampleConfig sampleExternalsOk 1
    (by decide) rfl rfl rfl

/-- C8: for an unsupported platform, the run logs an error diagnostic whose
message displays the invalid platform string, and an info diagnostic whose
message displays every platform of the supported-platform list. -/
theorem invalid_platform_diagnostics {B A R E D : Type} (nodeEnv : Option String)
    (args : CommandLineArgs) (config : ConfigT) (ext : Externals B A R E D)
    (hmem : args.platform ∉ config.resolver.platforms) :
    (∃ m, Event.logError (B := B) (A := A) (D := D) m ∈
        (buildBundleWithConfig nodeEnv args config ext).trace ∧
      args.platform.data <:+: m.data) ∧
    (∀ p ∈ config.resolver.platforms, ∃ m,
      Event.logInfo (B := B) (A := A) (D := D) m ∈
        (buildBundleWithConfig nodeEnv args config ext).trace ∧
      p.data <:+: m.data) := by
  have hv : jsIndexOf config.resolver.platforms args.platform = -1 :=
    (jsIndexOf_eq_neg_one_iff _ _).mpr hmem
  simp only [buildBundleWithConfig, hv, if_pos]
  constructor
  · exact ⟨invalidPlatformMessage args.platform, by simp,
      platform_infix_invalidPlatformMessage _⟩
  · intro p hp
    exact ⟨availablePlatformsMessage config.resolver.platforms, by simp,
      platform_infix_availablePlatformsMessage _ _ hp⟩

/-- Witness for C8 at a concrete run requesting the platform "windows". -/
theorem invalid_platform_diagnostics_witness :
    (∃ m, Event.logError (B := Nat) (A := Nat) (D := Unit) m ∈
        (buildBundleWithConfig none badArgs sampleConfig sampleExternalsOk).trace ∧
      badArgs.platform.data <:+: m.data) ∧
    (∀ p ∈ sampleConfig.resolver.platforms, ∃ m,
      Event.logInfo (B := Nat) (A := Nat) (D := Unit) m ∈
        (buildBundleWithConfig none badArgs sampleConfig sampleExternalsOk).trace ∧
      p.data <:+: m.data) :=
  invalid_platform_diagnostics none badArgs sampleConfig sampleExternalsOk (by decide)

/-- C9: in every run in which every step succeeds, the value returned by
`buildBundleWithConfig` is exactly the value returned by `saveAssets`,
unmodified. -/
theorem result_is_saveAssets_result {B A R E D : Type} (nodeEnv : Option String)
    (args : CommandLineArgs) (config : ConfigT) (ext : Externals B A R E D)
    (b : B) (a : A) (r : R)
    (mem : args.platform ∈ config.resolver.platforms)
    (hb : ext.build (requestOptionsOf args) = .ok b)
    (hm : ext.mkdir (dirname args.bundleOutput) = .ok ())
    (hs : ext.save b = .ok ())
    (hg : ext.getAssets
        (mergedBundleOptions ext.defaultBundleOptions (requestOptionsOf args)) = .ok a)
    (ha : ext.saveAssets a args.platform args.assetsDest args.assetCatalogDest =
        .ok r) :
    (buildBundleWithConfig nodeEnv args config ext).result = .ok r := by
  have hv : ¬ jsIndexOf config.resolver.platforms args.platform = -1 := fun h =>
    (jsIndexOf_eq_neg_one_iff _ _).mp h mem
  simp only [buildBundleWithConfig, if_neg hv, tryBody, hb, hm, hs, hg, ha]

/-- Witness for C9 at a concrete all-succeeding run returning 7. -/
theorem result_is_saveAssets_result_witness :
    (buildBundleWithConfig none sampleArgs sampleConfig sampleExternalsOk).result =
      .ok 7 :=
  result_is_saveAssets_result none sampleArgs sampleConfig sampleExternalsOk 1 2 7
    (by decide) rfl rfl rfl rfl rfl

/-- C10: when platform validation fails, `process.env.NODE_ENV` is left
exactly as it was before the call, and no assignment to it is ever
performed during the run. -/
theorem node_env_unchanged_on_invalid_platform {B A R E D : Type}
    (nodeEnv : Option String) (args : CommandLineArgs) (config : ConfigT)
    (ext : Externals B A R E D)
    (hmem : args.platform ∉ config.resolver.platforms) :
    (buildBundleWithConfig nodeEnv args config ext).nodeEnv = nodeEnv ∧
    (buildBundleWithConfig nodeEnv args config ext).trace.countP
      Event.isSetNodeEnv = 0 := by
  have hv : jsIndexOf config.resolver.platforms args.platform = -1 :=
    (jsIndexOf_eq_neg_one_iff _ _).mpr hmem
  simp [buildBundleWithConfig, hv, List.countP_cons, Event.isSetNodeEnv]

/-- Witness for C10 at a concrete run with a prior `NODE_ENV` value. -/
theorem node_env_unchanged_on_invalid_platform_witness :
    (buildBundleWithConfig (some "test") badArgs sampleConfig
        sampleExternalsOk).nodeEnv = some "test" ∧
    (buildBundleWithConfig (some "test") badArgs sampleConfig
        sampleExternalsOk).trace.countP Event.isSetNodeEnv = 0 :=
  node_env_unchanged_on_invalid_platform (some "test") badArgs sampleConfig
    sampleExternalsOk (by decide)
